import Mathlib

/-!
Shallow embedding of the abridge serial-bridge node
(src/src/sipi_controller/src/abridge.cpp) and verification of the
frozen claims about its codec, state aggregation and command limiting.

Modelling conventions:
* C++ floating-point values (float/double) are modelled as exact
  rationals (ℚ); `atof` is modelled as a permissive decimal parser over ℚ
  (hex, inf and nan inputs are out of scope of the wire protocol).
* `tf::createQuaternionMsgFromRollPitchYaw(r,p,y)` is an injective
  external constructor; an orientation is modelled by the (roll,pitch,yaw)
  arguments it was built from.
* `std::vector::at` is bounds-checked and throws `std::out_of_range`;
  field access is modelled in an `Except` monad whose error value carries
  the global state at the moment the exception is thrown (C++ globals
  mutated before the throw stay mutated).
* ROS timestamps (`ros::Time::now()`) are wall-clock and not modelled.
-/

/-! ## Small numeric and string helpers -/

/-- Truncation toward zero of a rational, the semantics of the C++
conversion from a floating value to `int` (`Int.div` is T-division). -/
def cppTruncInt (q : ℚ) : Int := Int.tdiv q.num (q.den : Int)

/-- Floor of a rational as an integer (`Int.fdiv` floors). -/
def ratFloorZ (q : ℚ) : Int := Int.fdiv q.num (q.den : Int)

/-- Round a rational to the nearest integer, half upward. -/
def roundHalfUp (q : ℚ) : Int := ratFloorZ (q + 1/2)

/-- Integer power of ten as a rational, with negative exponents. -/
def qpow10 (e : Int) : ℚ :=
  if 0 ≤ e then ((10 : ℚ) ^ e.toNat) else 1 / ((10 : ℚ) ^ (-e).toNat)

/-- Decimal digit characters of a natural number, most significant first
(fuel-driven so the recursion is structural). -/
def natToDigitChars : Nat → Nat → List Char
  | 0, _ => []
  | fuel + 1, n =>
    if n = 0 then [] else natToDigitChars fuel (n / 10) ++ [Char.ofNat (48 + n % 10)]

/-- Decimal digit list of a natural number (never empty). -/
def natDigitList (n : Nat) : List Char :=
  if n = 0 then ['0'] else natToDigitChars (n + 1) n

/-- Decimal representation of a natural number. -/
def natRepr10 (n : Nat) : String := String.mk (natDigitList n)

/-- Number of decimal digits of a natural number. -/
def natDigits10 (n : Nat) : Nat := (natDigitList n).length

/-! ## The permissive numeric field parser (model of C `atof`) -/

/-- The characters C's `isspace` accepts and `atof` skips. -/
def isSpaceChar (c : Char) : Bool :=
  c = ' ' || c = '\t' || c = '\n' || c = '\x0b' || c = '\x0c' || c = '\r'

/-- Split a leading run of decimal digits off a character list. -/
def takeDigits : List Char → List Char × List Char
  | [] => ([], [])
  | c :: cs =>
    if c.isDigit then
      let p := takeDigits cs
      (c :: p.1, p.2)
    else ([], c :: cs)

/-- Value of a digit character. -/
def digitVal (c : Char) : Nat := c.toNat - 48

/-- Natural number denoted by a digit list (most significant first). -/
def natOfDigits (l : List Char) : Nat :=
  l.foldl (fun acc c => acc * 10 + digitVal c) 0

/-- Consume an optional sign; `true` means negative. -/
def parseSign : List Char → Bool × List Char
  | '-' :: cs => (true, cs)
  | '+' :: cs => (false, cs)
  | cs => (false, cs)

/-- Core of `atof` after whitespace skipping: `none` when no conversion
can be performed (no digits before or after the decimal point),
otherwise the exact rational value of the longest numeric prefix. -/
def atofCore (cs0 : List Char) : Option ℚ :=
  let s1 := parseSign cs0
  let ip := takeDigits s1.2
  let fpRest : List Char × List Char :=
    match ip.2 with
    | '.' :: r => takeDigits r
    | _ => ([], ip.2)
  if ip.1 = [] ∧ fpRest.1 = [] then none
  else
    let mant : ℚ :=
      (natOfDigits ip.1 : ℚ) + (natOfDigits fpRest.1 : ℚ) / (10 : ℚ) ^ fpRest.1.length
    let e : Int :=
      match fpRest.2 with
      | 'e' :: r | 'E' :: r =>
        let es := parseSign r
        let ed := takeDigits es.2
        if ed.1 = [] then 0
        else if es.1 then -(natOfDigits ed.1 : Int) else (natOfDigits ed.1 : Int)
      | _ => 0
    let v := mant * qpow10 e
    some (if s1.1 then -v else v)

/-- Model of C `atof`: parse the longest numeric prefix, 0.0 when no
conversion can be performed. -/
def atofQ (s : String) : ℚ :=
  (atofCore (s.toList.dropWhile isSpaceChar)).getD 0

/-- Whether `atof` performs a conversion on this string at all. -/
def atofConverts (s : String) : Bool :=
  (atofCore (s.toList.dropWhile isSpaceChar)).isSome

/-! ## Line and field splitting (C++ `getline` loops) -/

/-- Chunks of a character list between occurrences of `sep`, keeping a
trailing empty chunk (raw separator split). -/
def splitCharsAux (sep : Char) : List Char → List Char → List (List Char)
  | [], acc => [acc.reverse]
  | c :: cs, acc =>
    if c = sep then acc.reverse :: splitCharsAux sep cs []
    else splitCharsAux sep cs (c :: acc)

/-- Semantics of the `while (getline(stream, tok, sep))` loop: the chunks
between separators; a trailing separator yields no final empty chunk, and
an empty input yields no chunks at all. -/
def cppGetlines (s : List Char) (sep : Char) : List (List Char) :=
  match s with
  | [] => []
  | _ :: _ =>
    let parts := splitCharsAux sep s []
    if s.getLast? = some sep then parts.dropLast else parts

/-- String-level wrapper of `cppGetlines`. -/
def cppSplitStr (s : String) (sep : Char) : List String :=
  (cppGetlines s.toList sep).map (fun l => String.mk l)

/-! ## Data model -/

/-- An orientation, identified by the roll/pitch/yaw arguments of the
`tf` quaternion constructor it was built from. -/
structure RPY where
  roll : ℚ
  pitch : ℚ
  yaw : ℚ
deriving Repr, DecidableEq

/-- `geometry_msgs::Twist`: linear and angular velocity components. -/
structure Twist where
  linearX : ℚ
  linearY : ℚ
  linearZ : ℚ
  angularX : ℚ
  angularY : ℚ
  angularZ : ℚ
deriving Repr, DecidableEq

/-- The aggregated telemetry state held in the node's globals:
finger/wrist angles, IMU sample, odometry and the three sonar ranges. -/
structure BridgeState where
  fingerAngle : RPY
  wristAngle : RPY
  imuLinAccX : ℚ
  imuLinAccY : ℚ
  imuLinAccZ : ℚ
  imuAngVelX : ℚ
  imuAngVelY : ℚ
  imuAngVelZ : ℚ
  imuOrient : RPY
  odomPosX : ℚ
  odomPosY : ℚ
  odomPosZ : ℚ
  odomYaw : ℚ
  odomLinX : ℚ
  odomLinY : ℚ
  odomAngZ : ℚ
  sonarLeftRange : ℚ
  sonarCenterRange : ℚ
  sonarRightRange : ℚ
deriving Repr, DecidableEq

/-- The zero-initialized globals at process start. -/
def initState : BridgeState :=
  { fingerAngle := ⟨0, 0, 0⟩
    wristAngle := ⟨0, 0, 0⟩
    imuLinAccX := 0, imuLinAccY := 0, imuLinAccZ := 0
    imuAngVelX := 0, imuAngVelY := 0, imuAngVelZ := 0
    imuOrient := ⟨0, 0, 0⟩
    odomPosX := 0, odomPosY := 0, odomPosZ := 0
    odomYaw := 0, odomLinX := 0, odomLinY := 0, odomAngZ := 0
    sonarLeftRange := 0, sonarCenterRange := 0, sonarRightRange := 0 }

/-! ## Command limiting (`limit`, `driveCommandHandler`) -/

/-- `#define MAX_LIN_VEL_CMD 0.3  // m/s` -/
def MAX_LIN_VEL_CMD : ℚ := 3/10

/-- `#define MAX_ANG_VEL_CMD 0.5  // rad/s` (defined in the source but
never used by any computation). -/
def MAX_ANG_VEL_CMD : ℚ := 1/2

/-- `float limit(float val, float max)`: symmetric clamp. -/
def limit (val mx : ℚ) : ℚ :=
  if val > mx then mx
  else if val < -mx then -mx
  else val

/-- `driveCommandHandler`: store the whole incoming twist, then clamp
`linear.x` against `MAX_LIN_VEL_CMD` and `angular.z` also against
`MAX_LIN_VEL_CMD` (the source passes the linear bound on line 170). -/
def driveCommandHandler (message : Twist) : Twist :=
  let c := message
  let c := { c with linearX := limit c.linearX MAX_LIN_VEL_CMD }
  { c with angularZ := limit c.angularZ MAX_LIN_VEL_CMD }

/-- `calculateMotorCommands`: proportional duty computation from the
stored odometry twist and the stored setpoint.  `Ki` is declared in the
source but never applied.  Returns (motor_left, motor_right). -/
def calculateMotorCommands (odomTwist : Twist) (cmdVel : Twist) : Int × Int :=
  let err : Twist :=
    { linearX := odomTwist.linearX - cmdVel.linearX
      linearY := 0, linearZ := 0, angularX := 0, angularY := 0
      angularZ := odomTwist.angularZ - cmdVel.angularZ }
  let Kp : ℚ := 10
  let vx : Int := cppTruncInt (err.linearX * Kp)
  let vz : Int := cppTruncInt (err.angularZ * Kp)
  (vx - vz, vx + vz)

/-! ## `%.4g` formatting (used by the finger/wrist handlers) -/

/-- Decimal exponent of a positive rational: the `X` with
`10^X ≤ q < 10^(X+1)`, found by fueled scaling. -/
def decExpAux : Nat → ℚ → Int → Int
  | 0, _, acc => acc
  | fuel + 1, q, acc =>
    if q < 1 then decExpAux fuel (q * 10) (acc - 1)
    else if 10 ≤ q then decExpAux fuel (q / 10) (acc + 1)
    else acc

/-- Decimal exponent of a positive rational. -/
def decExp (q : ℚ) : Int :=
  decExpAux (natDigits10 q.num.natAbs + natDigits10 q.den + 2) q 0

/-- Drop trailing zero characters. -/
def stripTrailingZeros (l : List Char) : List Char :=
  (l.reverse.dropWhile (fun c => c = '0')).reverse

/-- Render a 4-digit mantissa `ds` at decimal exponent `X` in fixed
notation, stripping trailing fractional zeros as `%g` does. -/
def fmtFixed4 (ds : List Char) (X : Int) : String :=
  if 0 ≤ X then
    let k := X.toNat + 1
    let frac := stripTrailingZeros (ds.drop k)
    String.mk (ds.take k) ++ (if frac = [] then "" else "." ++ String.mk frac)
  else
    let zs := List.replicate (X.natAbs - 1) '0'
    "0." ++ String.mk (zs ++ stripTrailingZeros ds)

/-- Render a 4-digit mantissa at exponent `X` in scientific notation
(`d.ddde±XX`), stripping trailing mantissa zeros as `%g` does. -/
def fmtSci4 (ds : List Char) (X : Int) : String :=
  let mstr :=
    match ds with
    | d :: rest =>
      let r := stripTrailingZeros rest
      String.mk [d] ++ (if r = [] then "" else "." ++ String.mk r)
    | [] => "0"
  let ex := X.natAbs
  let exStr := if ex < 10 then "0" ++ natRepr10 ex else natRepr10 ex
  mstr ++ "e" ++ (if 0 ≤ X then "+" else "-") ++ exStr

/-- `sprintf("%.4g", q)` for positive `q`: round to 4 significant
decimal digits, then choose fixed or scientific notation exactly as
`%g` with precision 4 does. -/
def fmt4gPos (q : ℚ) : String :=
  let X0 := decExp q
  let m0 := roundHalfUp (q * qpow10 (3 - X0))
  let p := if m0 = 10000 then ((1000 : Int), X0 + 1) else (m0, X0)
  let ds := natDigitList p.1.toNat
  if p.2 < -4 ∨ 4 ≤ p.2 then fmtSci4 ds p.2 else fmtFixed4 ds p.2

/-- `sprintf("%.4g", q)` over all of ℚ. -/
def fmt4g (q : ℚ) : String :=
  if q = 0 then "0"
  else if q < 0 then "-" ++ fmt4gPos (-q)
  else fmt4gPos q

/-! ## Finger and wrist command encoding -/

/-- `fingerAngleHandler`: `"f,0\n"` when the (signed) angle is below
0.01, otherwise `"f,%.4g\n"` of the angle. -/
def fingerAngleHandler (angle : ℚ) : String :=
  if angle < 1/100 then "f,0\n"
  else "f," ++ fmt4g angle ++ "\n"

/-- `wristAngleHandler`: `"w,0\n"` when the (signed) angle is below
0.01, otherwise `"w,%.4g\n"` of the angle. -/
def wristAngleHandler (angle : ℚ) : String :=
  if angle < 1/100 then "w,0\n"
  else "w," ++ fmt4g angle ++ "\n"

/-! ## Telemetry decoding (`parseData`) -/

/-- `dataSet.at(i)`: bounds-checked field access.  Out of bounds throws
`std::out_of_range`; the error value records the global state as mutated
so far, since the exception propagates out of `parseData`. -/
def fieldAt (st : BridgeState) (dataSet : List String) (i : Nat) :
    Except BridgeState String :=
  match dataSet.get? i with
  | some w => Except.ok w
  | none => Except.error st

/-- Process one comma-split sentence: the body of the `while` loop of
`parseData`, after the inner `getline` split.  Mirrors the guard
`dataSet.size() >= 3 && dataSet.at(1) == "1"` and the tag dispatch
chain, with every `at` access and global mutation in source statement
order. -/
def processLine (st : BridgeState) (dataSet : List String) :
    Except BridgeState BridgeState :=
  if dataSet.length ≥ 3 ∧ dataSet.getD 1 "" = "1" then
    if dataSet.getD 0 "" = "GRF" then do
      let f2 ← fieldAt st dataSet 2
      pure { st with fingerAngle := ⟨atofQ f2, 0, 0⟩ }
    else if dataSet.getD 0 "" = "GRW" then do
      let f2 ← fieldAt st dataSet 2
      pure { st with wristAngle := ⟨atofQ f2, 0, 0⟩ }
    else if dataSet.getD 0 "" = "IMU" then do
      let f2 ← fieldAt st dataSet 2
      let st := { st with imuLinAccX := atofQ f2 }
      let st := { st with imuLinAccY := 0 }
      let f4 ← fieldAt st dataSet 4
      let st := { st with imuLinAccZ := atofQ f4 }
      let f5 ← fieldAt st dataSet 5
      let st := { st with imuAngVelX := atofQ f5 }
      let f6 ← fieldAt st dataSet 6
      let st := { st with imuAngVelY := atofQ f6 }
      let f7 ← fieldAt st dataSet 7
      let st := { st with imuAngVelZ := atofQ f7 }
      let f8 ← fieldAt st dataSet 8
      let f9 ← fieldAt st dataSet 9
      let f10 ← fieldAt st dataSet 10
      pure { st with imuOrient := ⟨atofQ f8, atofQ f9, atofQ f10⟩ }
    else if dataSet.getD 0 "" = "ODOM" then do
      let f2 ← fieldAt st dataSet 2
      let st := { st with odomPosX := st.odomPosX + atofQ f2 / 100 }
      let f3 ← fieldAt st dataSet 3
      let st := { st with odomPosY := st.odomPosY + atofQ f3 / 100 }
      let st := { st with odomPosZ := 0 }
      let f4 ← fieldAt st dataSet 4
      let st := { st with odomYaw := atofQ f4 }
      let f5 ← fieldAt st dataSet 5
      let st := { st with odomLinX := atofQ f5 / 100 }
      let f6 ← fieldAt st dataSet 6
      let st := { st with odomLinY := atofQ f6 / 100 }
      let f7 ← fieldAt st dataSet 7
      pure { st with odomAngZ := atofQ f7 }
    else if dataSet.getD 0 "" = "USL" then do
      let f2 ← fieldAt st dataSet 2
      pure { st with sonarLeftRange := atofQ f2 / 100 }
    else if dataSet.getD 0 "" = "USC" then do
      let f2 ← fieldAt st dataSet 2
      pure { st with sonarCenterRange := atofQ f2 / 100 }
    else if dataSet.getD 0 "" = "USR" then do
      let f2 ← fieldAt st dataSet 2
      pure { st with sonarRightRange := atofQ f2 / 100 }
    else
      pure st
  else
    pure st

/-- One sentence of `parseData`: comma-split then process. -/
def applySentence (st : BridgeState) (sentence : String) :
    Except BridgeState BridgeState :=
  processLine st (cppSplitStr sentence ',')

/-- `parseData`: split the buffer on newlines and process each sentence
in order; a thrown `std::out_of_range` aborts the remaining sentences
(it propagates out of the function). -/
def parseData (st : BridgeState) (data : String) :
    Except BridgeState BridgeState :=
  (cppSplitStr data '\n').foldlM applySentence st

/-- The tags the decoder's dispatch chain recognizes. -/
def recognizedTag (t : String) : Bool :=
  t = "GRF" || t = "GRW" || t = "IMU" || t = "ODOM" ||
  t = "USL" || t = "USC" || t = "USR"

deriving instance DecidableEq for Except

/-! ## Shared helper lemmas -/

/-- A value already within the symmetric bound passes `limit` unchanged. -/
theorem limit_within (v mx : ℚ) (h1 : -mx ≤ v) (h2 : v ≤ mx) : limit v mx = v := by
  unfold limit
  rw [if_neg (not_lt.mpr h2), if_neg (not_lt.mpr h1)]

/-- When `atof` performs no conversion, its result is 0. -/
theorem atofQ_zero_of_no_conversion (f : String) (h : atofConverts f = false) :
    atofQ f = 0 := by
  unfold atofQ
  unfold atofConverts at h
  cases hc : atofCore (f.toList.dropWhile isSpaceChar) with
  | none => rfl
  | some v => rw [hc] at h; simp at h

section
attribute [local semireducible] Rat.mul Rat.inv Rat.add Rat.sub

/-! ## Claim theorems -/

/-- C1: the claim says the stored setpoint's angular velocity is clamped
to ±0.5 rad/s, values within ±0.5 stored unchanged.  The code instead
clamps `angular.z` against `MAX_LIN_VEL_CMD` (0.3): an incoming angular
velocity of 0.4 rad/s — inside ±0.5, and a fixed point of a clamp at the
source's own `MAX_ANG_VEL_CMD` — is stored as 0.3, and 10 rad/s is
stored as 0.3 rather than 0.5.  The unused constant `MAX_ANG_VEL_CMD`
equals the claimed bound 0.5. -/
theorem C1_angular_clamped_to_linear_bound :
    (driveCommandHandler ⟨0, 0, 0, 0, 0, 2/5⟩).angularZ = 3/10
    ∧ limit (2/5) MAX_ANG_VEL_CMD = 2/5
    ∧ (driveCommandHandler ⟨0, 0, 0, 0, 0, 10⟩).angularZ = 3/10
    ∧ MAX_ANG_VEL_CMD = 1/2 :=
  ⟨by decide, by decide, by decide, by decide⟩

/-- C2: the claim says a recognized, valid line that passes the
minimum-3-fields check but supplies fewer fields than its tag requires
is discarded, with no out-of-bounds field access and state unchanged.
The code instead reaches `dataSet.at(4)` on a 3-field IMU line (resp.
`at(3)` on a 3-field ODOM line): the bounds-checked access throws, the
exception propagates out of `parseData`, and the globals mutated before
the throw stay mutated (`linear_acceleration.x` is already 2.5, resp.
`position.x` already incremented). -/
theorem C2_underlength_line_faults :
    parseData initState "IMU,1,2.5\n" =
      Except.error { initState with imuLinAccX := 5/2 }
    ∧ ({ initState with imuLinAccX := 5/2 } : BridgeState) ≠ initState
    ∧ processLine initState ["ODOM", "1", "3.0"] =
      Except.error { initState with odomPosX := 3/100 } :=
  ⟨by decide, by decide, by decide⟩

/-- C3: a line with fewer than 3 comma-separated fields, or second field
not `"1"`, or an unrecognized first field, produces no record and leaves
every aggregated field unchanged, surfacing no error: `applySentence`
returns the input state as a normal (non-exceptional) result. -/
theorem C3_malformed_line_discarded (st : BridgeState) (sentence : String)
    (h : (cppSplitStr sentence ',').length < 3
       ∨ (cppSplitStr sentence ',').getD 1 "" ≠ "1"
       ∨ recognizedTag ((cppSplitStr sentence ',').getD 0 "") = false) :
    applySentence st sentence = Except.ok st := by
  unfold applySentence processLine
  by_cases hg : (cppSplitStr sentence ',').length ≥ 3
      ∧ (cppSplitStr sentence ',').getD 1 "" = "1"
  · rw [if_pos hg]
    have htag : recognizedTag ((cppSplitStr sentence ',').getD 0 "") = false := by
      rcases h with h | h | h
      · exact absurd hg.1 (not_le.mpr h)
      · exact absurd hg.2 h
      · exact h
    simp only [recognizedTag, Bool.or_eq_false_iff, decide_eq_false_iff_not] at htag
    obtain ⟨⟨⟨⟨⟨⟨hA, hB⟩, hC⟩, hD⟩, hE⟩, hF⟩, hG⟩ := htag
    rw [if_neg hA, if_neg hB, if_neg hC, if_neg hD, if_neg hE, if_neg hF, if_neg hG]
    rfl
  · rw [if_neg hg]
    rfl

/-- Witness for C3 at the concrete one-field line `"junk"`. -/
theorem C3_malformed_line_discarded_witness :
    applySentence initState "junk" = Except.ok initState :=
  C3_malformed_line_discarded initState "junk" (Or.inl (by decide))

/-- C4: a valid ODOM record adds the wire x/y fields divided by 100 to
the stored position, sets position z to 0, and replaces heading (yaw),
linear velocities (÷ 100) and angular velocity z (as-is); feeding two
ODOM records with x-deltas 10.0 and 5.0 wire units to the zero state
accumulates position x = 0.15 m (= 3/20). -/
theorem C4_odom_record_semantics :
    (∀ (st : BridgeState) (f2 f3 f4 f5 f6 f7 : String),
      processLine st ["ODOM", "1", f2, f3, f4, f5, f6, f7] =
        Except.ok { st with
          odomPosX := st.odomPosX + atofQ f2 / 100
          odomPosY := st.odomPosY + atofQ f3 / 100
          odomPosZ := 0
          odomYaw := atofQ f4
          odomLinX := atofQ f5 / 100
          odomLinY := atofQ f6 / 100
          odomAngZ := atofQ f7 })
    ∧ parseData initState "ODOM,1,10.0,0,0,0,0,0\nODOM,1,5.0,0,0,0,0,0\n" =
        Except.ok { initState with odomPosX := 3/20 } :=
  ⟨fun _ _ _ _ _ _ _ => rfl, by decide⟩

/-- C5: the stored setpoint's linear velocity is `limit`-clamped to
±0.3 m/s: 10 m/s is stored as 0.3, −10 m/s as −0.3, and any value
within ±0.3 is stored unchanged. -/
theorem C5_linear_velocity_clamp :
    (∀ m : Twist, (driveCommandHandler m).linearX = limit m.linearX MAX_LIN_VEL_CMD)
    ∧ (driveCommandHandler ⟨10, 0, 0, 0, 0, 0⟩).linearX = 3/10
    ∧ (driveCommandHandler ⟨-10, 0, 0, 0, 0, 0⟩).linearX = -(3/10)
    ∧ ∀ m : Twist, -(3/10) ≤ m.linearX → m.linearX ≤ 3/10 →
        (driveCommandHandler m).linearX = m.linearX :=
  ⟨fun _ => rfl, by decide, by decide,
   fun m h1 h2 => limit_within m.linearX MAX_LIN_VEL_CMD h1 h2⟩

/-- Witness for C5 at the in-bounds setpoint 0.2 m/s. -/
theorem C5_linear_velocity_clamp_witness :
    (driveCommandHandler ⟨1/5, 0, 0, 0, 0, 0⟩).linearX = 1/5 :=
  C5_linear_velocity_clamp.2.2.2 ⟨1/5, 0, 0, 0, 0, 0⟩ (by norm_num) (by norm_num)

/-- C6 counterexample: with observed velocity (0.05, −0.05) and zero
setpoint, the code's left duty is trunc(0.5) − trunc(−0.5) = 0, while
the claim's expression (error_linear·Kp) − (error_angular·Kp) truncated
to integer is trunc(0.5 − (−0.5)) = 1. -/
theorem C6_duty_truncation_counterexample :
    calculateMotorCommands ⟨1/20, 0, 0, 0, 0, -(1/20)⟩ ⟨0, 0, 0, 0, 0, 0⟩ = (0, 0)
    ∧ cppTruncInt ((((1/20 : ℚ) - 0) * 10) - ((-(1/20 : ℚ) - 0) * 10)) = 1
    ∧ (calculateMotorCommands ⟨1/20, 0, 0, 0, 0, -(1/20)⟩ ⟨0, 0, 0, 0, 0, 0⟩).1
        ≠ cppTruncInt ((((1/20 : ℚ) - 0) * 10) - ((-(1/20 : ℚ) - 0) * 10)) :=
  ⟨by decide, by decide, by decide⟩

/-- C6 amended: each error·Kp product is truncated to integer
individually (toward zero, Kp = 10); left duty is the difference and
right duty the sum of the two truncated products.  The claim's concrete
example holds: observed (0,0) with setpoint linear 0.3, angular 0
yields duties (−3, −3). -/
theorem C6_duty_computation :
    (∀ odomTwist cmdVel : Twist,
      calculateMotorCommands odomTwist cmdVel =
        (cppTruncInt ((odomTwist.linearX - cmdVel.linearX) * 10)
           - cppTruncInt ((odomTwist.angularZ - cmdVel.angularZ) * 10),
         cppTruncInt ((odomTwist.linearX - cmdVel.linearX) * 10)
           + cppTruncInt ((odomTwist.angularZ - cmdVel.angularZ) * 10)))
    ∧ calculateMotorCommands ⟨0, 0, 0, 0, 0, 0⟩ ⟨3/10, 0, 0, 0, 0, 0⟩ = (-3, -3) :=
  ⟨fun _ _ => rfl, by decide⟩

/-- C7 counterexample: the zero form is chosen by the signed comparison
`angle < 0.01`, not by absolute magnitude: the angle −1, whose absolute
magnitude 1 is not below 0.01, still encodes as `"f,0\n"` instead of
the 4-significant-digit form `"f,-1\n"`. -/
theorem C7_signed_zero_check_counterexample :
    fingerAngleHandler (-1) = "f,0\n"
    ∧ fmt4g (-1) = "-1"
    ∧ fingerAngleHandler (-1) ≠ "f," ++ fmt4g (-1) ++ "\n"
    ∧ (1/100 : ℚ) ≤ |(-1 : ℚ)| :=
  ⟨by decide, by decide, by decide, by norm_num⟩

/-- C7 amended: encoding produces `"f,0\n"` (`"w,0\n"` for wrist)
whenever the signed angle is below 0.01 (so also for every negative
angle), and otherwise formats the angle with 4 significant digits;
encoding 0.005 produces `"f,0\n"` and encoding 1.2345678 produces
`"f,1.235\n"`. -/
theorem C7_joint_angle_encoding (a : ℚ) :
    (a < 1/100 → fingerAngleHandler a = "f,0\n" ∧ wristAngleHandler a = "w,0\n")
    ∧ (¬ a < 1/100 →
        fingerAngleHandler a = "f," ++ fmt4g a ++ "\n"
        ∧ wristAngleHandler a = "w," ++ fmt4g a ++ "\n")
    ∧ fingerAngleHandler (1/200) = "f,0\n"
    ∧ fingerAngleHandler (12345678/10000000) = "f,1.235\n" := by
  refine ⟨fun h => ?_, fun h => ?_, by decide, by decide⟩
  · unfold fingerAngleHandler wristAngleHandler
    rw [if_pos h, if_pos h]
    exact ⟨rfl, rfl⟩
  · unfold fingerAngleHandler wristAngleHandler
    rw [if_neg h, if_neg h]
    exact ⟨rfl, rfl⟩

/-- Witness for C7 at the small angle −1 and the large angle 2. -/
theorem C7_joint_angle_encoding_witness :
    (fingerAngleHandler (-1) = "f,0\n" ∧ wristAngleHandler (-1) = "w,0\n")
    ∧ (fingerAngleHandler 2 = "f," ++ fmt4g 2 ++ "\n"
        ∧ wristAngleHandler 2 = "w," ++ fmt4g 2 ++ "\n") :=
  ⟨(C7_joint_angle_encoding (-1)).1 (by norm_num),
   (C7_joint_angle_encoding 2).2.1 (by norm_num)⟩

/-- C8: an unparsable numeric field parses as 0.0, the record is still
applied (a USL record with an arbitrary third field is stored, scaled by
1/100), and decoding returns normally (no parse error): concretely,
`"USL,1,banana\n"` is applied and stores a left-sonar range of 0. -/
theorem C8_unparsable_field_parses_as_zero (st : BridgeState) (f : String) :
    (atofConverts f = false → atofQ f = 0)
    ∧ processLine st ["USL", "1", f] =
        Except.ok { st with sonarLeftRange := atofQ f / 100 }
    ∧ atofConverts "banana" = false
    ∧ parseData initState "USL,1,banana\n" =
        Except.ok { initState with sonarLeftRange := 0 } :=
  ⟨fun h => atofQ_zero_of_no_conversion f h, rfl, by decide, by decide⟩

/-- Witness for C8 at the unparsable field `"banana"`. -/
theorem C8_unparsable_field_parses_as_zero_witness : atofQ "banana" = 0 :=
  (C8_unparsable_field_parses_as_zero initState "banana").1 (by decide)

/-- C9: a valid sonar line replaces exactly the corresponding stored
range with the wire value divided by 100, the other fields (including
the two other sonar ranges) unchanged; decoding `"USL,1,150.0\n"`
yields a left-sonar range of 1.50 m (= 3/2). -/
theorem C9_sonar_range_scaling (st : BridgeState) (f : String) :
    processLine st ["USL", "1", f] =
      Except.ok { st with sonarLeftRange := atofQ f / 100 }
    ∧ processLine st ["USC", "1", f] =
      Except.ok { st with sonarCenterRange := atofQ f / 100 }
    ∧ processLine st ["USR", "1", f] =
      Except.ok { st with sonarRightRange := atofQ f / 100 }
    ∧ parseData initState "USL,1,150.0\n" =
      Except.ok { initState with sonarLeftRange := 3/2 } :=
  ⟨rfl, rfl, rfl, by decide⟩

/-- C10: the drive handler stores the whole incoming message, so every
component other than linear.x and angular.z — linear.y, linear.z,
angular.x and angular.y — is stored exactly as received, unclamped. -/
theorem C10_other_twist_components_stored_verbatim (m : Twist) :
    (driveCommandHandler m).linearY = m.linearY
    ∧ (driveCommandHandler m).linearZ = m.linearZ
    ∧ (driveCommandHandler m).angularX = m.angularX
    ∧ (driveCommandHandler m).angularY = m.angularY :=
  ⟨rfl, rfl, rfl, rfl⟩

end
